import Mathlib

/-!
Verification of the spatial-reference core of `flopy/utils/reference.py`
(`SpatialReference` and `SpatialReferenceUnstructured`).

The Python module is embedded shallowly:

* machine floats become real numbers `ℝ` (the claims speak of exact real
  arithmetic, "within tolerance numerically");
* numpy 1-D arrays become `List ℝ`, 2-D meshgrids become `List (List ℝ)`;
* fallible code (`raise`) returns `Except PyErr _`;
* `SpatialReference` instances become the structure `SR`; the lazily cached
  derived grids of the Python object live in the wrapper structure `SRState`
  (cached fields are `Option _`, `None`/`none` meaning invalidated).
-/

namespace Flopy

/-- Python exception kinds raised by the module. -/
inductive PyErr
  | typeError
  | valueError
  | attributeError
  | assertionError
  | keyError
  deriving DecidableEq, Repr

/-- `SpatialReference.origin_loc`: which corner is authoritative (`'ul'` or `'ll'`). -/
inductive OriginLoc
  | ul
  | ll
  deriving DecidableEq, Repr

/-- The persistent attributes of a `SpatialReference` instance that the geometry
core reads.  `unitsOpt`, `proj4Opt`, `lmOpt` are the private `_units`,
`_proj4_str`, `_length_multiplier` backing fields. -/
structure SR where
  delr : List ℝ
  delc : List ℝ
  lenuni : ℤ
  xul : ℝ
  yul : ℝ
  xll : ℝ
  yll : ℝ
  rotation : ℝ
  origin_loc : OriginLoc
  unitsOpt : Option String
  proj4Opt : Option String
  lmOpt : Option ℝ

/-! ### Unit and length-multiplier resolution -/

/-- Substring test: `pat in s` for Python strings (for nonempty `pat`). -/
def hasSub (s pat : String) : Bool := (s.splitOn pat).length ≠ 1

/-- Python `str.lower()` (ASCII, character by character). -/
def pyLower (s : String) : String := ⟨s.data.map Char.toLower⟩

/-- Python `str.upper()` (ASCII, character by character). -/
def pyUpper (s : String) : String := ⟨s.data.map Char.toUpper⟩

/-- `SpatialReference.supported_units`. -/
def supported_units : List String := ["feet", "meters"]

/-- `SpatialReference._parse_units_from_proj4`.  A `None` proj4 string raises
inside the `try` and yields `None`; a string mentioning EPSG delegates to the
external `pyproj` collaborator, which (absent a working installation) also
raises inside the `try` and yields `None`.  Otherwise the known unit markers
are searched in order. -/
def parse_units_from_proj4 (p : Option String) : Option String :=
  match p with
  | none => none
  | some s =>
    if hasSub (pyUpper s) "EPSG" then none
    else if hasSub s "units=m" then some "meters"
    else if hasSub s "units=ft" ∨ hasSub s "units=us-ft" ∨ hasSub s "to_meters:0.3048"
      then some "feet"
    else none

/-- `SpatialReference.lenuni_text`: dictionary lookup; `none` is Python's
`KeyError` for codes outside `{0, 1, 2, 3}`. -/
def lenuni_text (i : ℤ) : Option String :=
  if i = 0 then some "undefined"
  else if i = 1 then some "feet"
  else if i = 2 then some "meters"
  else if i = 3 then some "centimeters"
  else none

/-- `SpatialReference.units` property: explicit `_units` (lower-cased) wins,
else proj4-derived, else the `'meters'` default; finally
`assert units in self.supported_units`. -/
def SR.units (sr : SR) : Except PyErr String :=
  let u : Option String :=
    match sr.unitsOpt with
    | some s => some (pyLower s)
    | none => parse_units_from_proj4 sr.proj4Opt
  let u := u.getD "meters"
  if u ∈ supported_units then .ok u else .error .assertionError

/-- `SpatialReference.model_length_units` property. -/
def SR.model_length_units (sr : SR) : Option String := lenuni_text sr.lenuni

/-- `SpatialReference.length_multiplier` property.  An explicit
`_length_multiplier` wins; otherwise the value is derived from the model
length units and the resolved reference units.  `.error .keyError` is the
`lenuni_text` lookup failure; `.error .typeError` encodes Python returning
`None` here (model and reference unit combination with no table entry), which
raises `TypeError` at the first arithmetic use. -/
noncomputable def SR.length_multiplier (sr : SR) : Except PyErr ℝ :=
  match sr.lmOpt with
  | some lm => .ok lm
  | none =>
    match sr.model_length_units with
    | none => .error .keyError
    | some mlu =>
      if mlu = "feet" then
        match sr.units with
        | .ok u => if u = "meters" then .ok 0.3048
                   else if u = "feet" then .ok 1 else .error .typeError
        | .error e => .error e
      else if mlu = "meters" then
        match sr.units with
        | .ok u => if u = "feet" then .ok (1 / 0.3048)
                   else if u = "meters" then .ok 1 else .error .typeError
        | .error e => .error e
      else if mlu = "centimeters" then
        match sr.units with
        | .ok u => if u = "meters" then .ok (1 / 100)
                   else if u = "feet" then .ok (1 / 30.48) else .error .typeError
        | .error e => .error e
      else .ok 1

/-- The numeric value of `length_multiplier` used by the geometry code.
Theorems about the geometry carry the hypothesis
`sr.length_multiplier = .ok m` (Python would have raised otherwise). -/
noncomputable def SR.lmval (sr : SR) : ℝ := (sr.length_multiplier.toOption).getD 0

/-! ### Grid geometry: edge and center arrays -/

/-- `np.add.accumulate`: running (inclusive) cumulative sums. -/
def accumulate : List ℝ → List ℝ
  | [] => []
  | x :: xs => x :: (accumulate xs).map (x + ·)

/-- Sum of the first `n` entries (`accumulate l` evaluates to these sums). -/
def sumTake (l : List ℝ) (n : ℕ) : ℝ := (l.take n).sum

def SR.ncol (sr : SR) : ℕ := sr.delr.length

def SR.nrow (sr : SR) : ℕ := sr.delc.length

/-- `get_xedge_array`: `[0] ++ accumulate(delr)`. -/
def SR.get_xedge_array (sr : SR) : List ℝ := 0 :: accumulate sr.delr

/-- `get_xcenter_array`: `accumulate(delr) - 0.5 * delr`. -/
def SR.get_xcenter_array (sr : SR) : List ℝ :=
  List.zipWith (fun a d => a - 0.5 * d) (accumulate sr.delr) sr.delr

/-- `get_yedge_array`: `[Ly] ++ (Ly - accumulate(delc))` with `Ly = delc.sum()`. -/
def SR.get_yedge_array (sr : SR) : List ℝ :=
  sr.delc.sum :: (accumulate sr.delc).map (fun a => sr.delc.sum - a)

/-- `get_ycenter_array`: `Ly - (accumulate(delc) - 0.5 * delc)`. -/
def SR.get_ycenter_array (sr : SR) : List ℝ :=
  List.zipWith (fun a d => sr.delc.sum - (a - 0.5 * d)) (accumulate sr.delc) sr.delc

/-- `SpatialReference.rotate(x, y, theta, xorigin, yorigin)`: rotation about an
arbitrary origin, `theta` in degrees, positive counter-clockwise. -/
noncomputable def rotate (x y theta xorigin yorigin : ℝ) : ℝ × ℝ :=
  let t := theta * Real.pi / 180
  (xorigin + Real.cos t * (x - xorigin) - Real.sin t * (y - yorigin),
   yorigin + Real.sin t * (x - xorigin) + Real.cos t * (y - yorigin))

/-! ### Anchor maintenance and the transform pipeline -/

/-- `SpatialReference.theta` property: `-rotation * pi / 180`. -/
noncomputable def SR.theta (sr : SR) : ℝ := -sr.rotation * Real.pi / 180

/-- `self.yedge[0]`, the total column length used by `set_origin`. -/
def SR.yedge0 (sr : SR) : ℝ := sr.get_yedge_array.headD 0

/-- `SpatialReference.set_origin(xul, yul, xll, yll)`: from the authoritative
corner (per `origin_loc`) derive the complementary corner; `None` arguments
default to `0`. -/
noncomputable def SR.set_origin (sr : SR) (xul yul xll yll : Option ℝ) : SR :=
  match sr.origin_loc with
  | .ll =>
    let xll' := xll.getD 0
    let yll' := yll.getD 0
    { sr with
      xll := xll', yll := yll',
      xul := xll' + Real.sin sr.theta * sr.yedge0 * sr.lmval,
      yul := yll' + Real.cos sr.theta * sr.yedge0 * sr.lmval }
  | .ul =>
    let xul' := xul.getD 0
    let yul' := yul.getD 0
    { sr with
      xul := xul', yul := yul',
      xll := xul' - Real.sin sr.theta * sr.yedge0 * sr.lmval,
      yll := yul' - Real.cos sr.theta * sr.yedge0 * sr.lmval }

/-- `set_origin(xul=self.xul, yul=self.yul, xll=self.xll, yll=self.yll)`, the
self-refresh performed by `transform` and by the rotation setter. -/
noncomputable def SR.setOriginSelf (sr : SR) : SR :=
  sr.set_origin (some sr.xul) (some sr.yul) (some sr.xll) (some sr.yll)

/-- `SpatialReference.transform(x, y)` on a scalar point: reset the origin,
scale by the length multiplier, translate by the lower-left corner, rotate by
`rotation` degrees counter-clockwise about the lower-left corner. -/
noncomputable def SR.transform (sr : SR) (x y : ℝ) : ℝ × ℝ :=
  let sr' := sr.setOriginSelf
  let x := x * sr'.lmval
  let y := y * sr'.lmval
  let x := x + sr'.xll
  let y := y + sr'.yll
  rotate x y sr'.rotation sr'.xll sr'.yll

/-- Element-wise `rotate` over coordinate arrays (numpy broadcasting on 1-D
arrays). -/
noncomputable def rotateVec (xs ys : List ℝ) (theta xo yo : ℝ) : List ℝ × List ℝ :=
  let t := theta * Real.pi / 180
  (List.zipWith (fun x y => xo + Real.cos t * (x - xo) - Real.sin t * (y - yo)) xs ys,
   List.zipWith (fun x y => yo + Real.sin t * (x - xo) + Real.cos t * (y - yo)) xs ys)

/-- `SpatialReference.transform` applied to 1-D coordinate arrays: the
scale/translate steps are numpy element-wise operations, then `rotate` acts
element-wise. -/
noncomputable def SR.transformVec (sr : SR) (xs ys : List ℝ) : List ℝ × List ℝ :=
  let sr' := sr.setOriginSelf
  rotateVec (xs.map (fun x => x * sr'.lmval + sr'.xll))
            (ys.map (fun y => y * sr'.lmval + sr'.yll))
            sr'.rotation sr'.xll sr'.yll

/-! ### Derived meshgrids, vertices, reverse lookup -/

/-- `xcentergrid` values: `np.meshgrid(xcenter, ycenter)` (rows indexed by
`ycenter`) pushed through `transform`, keeping the x component. -/
noncomputable def SR.xcentergrid (sr : SR) : List (List ℝ) :=
  sr.get_ycenter_array.map fun yc =>
    sr.get_xcenter_array.map fun xc => (sr.transform xc yc).1

/-- `ycentergrid` values: as `xcentergrid`, keeping the y component. -/
noncomputable def SR.ycentergrid (sr : SR) : List (List ℝ) :=
  sr.get_ycenter_array.map fun yc =>
    sr.get_xcenter_array.map fun xc => (sr.transform xc yc).2

/-- `xgrid` values: `np.meshgrid(xedge, yedge)` pushed through `transform`,
x component. -/
noncomputable def SR.xgrid (sr : SR) : List (List ℝ) :=
  sr.get_yedge_array.map fun ye =>
    sr.get_xedge_array.map fun xe => (sr.transform xe ye).1

/-- `ygrid` values: as `xgrid`, y component. -/
noncomputable def SR.ygrid (sr : SR) : List (List ℝ) :=
  sr.get_yedge_array.map fun ye =>
    sr.get_xedge_array.map fun xe => (sr.transform xe ye).2

/-- `get_vertices(i, j)`: the closed 5-point cell outline read off the edge
meshgrids. -/
noncomputable def SR.get_vertices (sr : SR) (i j : ℕ) : List (ℝ × ℝ) :=
  let p := fun (a b : ℕ) => ((sr.xgrid.getD a []).getD b 0, (sr.ygrid.getD a []).getD b 0)
  [p i j, p (i + 1) j, p (i + 1) (j + 1), p i (j + 1), p i j]

/-- `_set_vertices`: all cell outlines in row-major (C) order. -/
noncomputable def SR.verticesAll (sr : SR) : List (List (ℝ × ℝ)) :=
  ((List.range sr.nrow).map fun i =>
    (List.range sr.ncol).map fun j => sr.get_vertices i j).flatten

/-- `np.argmin`: index of the first minimal entry (`0` on the empty array,
which in numpy would raise). -/
noncomputable def argminL (l : List ℝ) : ℕ :=
  (l.foldl (fun (st : ℕ × ℕ × ℝ) v =>
      if v < st.2.2 then (st.1 + 1, st.1, v) else (st.1 + 1, st.2.1, st.2.2))
    (0, 0, l.headD 0)).2.1

/-- `SpatialReference.get_rc(x, y)` for a scalar point: the column is the
argmin of `|xcentergrid[0] - x|`, the row the argmin of
`|ycentergrid[:, 0] - y|`. -/
noncomputable def SR.get_rc (sr : SR) (x y : ℝ) : ℕ × ℕ :=
  let c := argminL ((sr.xcentergrid.headD []).map fun v => |v - x|)
  let r := argminL ((sr.ycentergrid.map fun row => row.headD 0).map fun v => |v - y|)
  (r, c)

/-! ### Construction: `set_spatialreference` and `__init__` -/

/-- `SpatialReference.set_spatialreference(xul, yul, xll, yll, rotation)`:
reject ambiguous corners per axis, pick `origin_loc`, store the rotation and
derive the complementary corner.  The `rotation` assignment and `set_origin`
both evaluate `self.length_multiplier`, so an unresolvable multiplier raises
here (after the corner checks). -/
noncomputable def SR.set_spatialreference (sr : SR)
    (xul yul xll yll : Option ℝ) (rotation : ℝ) : Except PyErr SR :=
  if xul.isSome ∧ xll.isSome then .error .valueError
  else if yul.isSome ∧ yll.isSome then .error .valueError
  else
    let args :=
      if xul = none ∧ yul = none ∧ xll = none ∧ yll = none then
        (OriginLoc.ul, some (0 : ℝ), some sr.delc.sum, xll, yll)
      else if xll.isSome then (OriginLoc.ll, xul, yul, xll, yll)
      else (OriginLoc.ul, xul, yul, xll, yll)
    let sr := { sr with origin_loc := args.1, rotation := rotation }
    match sr.length_multiplier with
    | .error e => .error e
    | .ok _ => .ok (sr.set_origin args.2.1 args.2.2.1 args.2.2.2.1 args.2.2.2.2)

/-- The keyword arguments of `SpatialReference.__init__` that the geometry
core reads (the `epsg` argument only feeds the external CRS-registry
collaborator and is omitted). -/
structure InitArgs where
  delr : List ℝ := []
  delc : List ℝ := []
  lenuni : ℤ := 2
  xul : Option ℝ := none
  yul : Option ℝ := none
  xll : Option ℝ := none
  yll : Option ℝ := none
  rotation : ℝ := 0
  units : Option String := none
  proj4 : Option String := none
  lm : Option ℝ := none

/-- The instance attributes at the point of `__init__` just before
`set_spatialreference` is called.  The corner fields start at `0`, standing
for the class-level `None` placeholders, and are always overwritten by
`set_origin` before use. -/
def InitArgs.srBase (a : InitArgs) : SR :=
  { delr := a.delr, delc := a.delc, lenuni := a.lenuni,
    xul := 0, yul := 0, xll := 0, yll := 0, rotation := 0,
    origin_loc := .ul, unitsOpt := a.units, proj4Opt := a.proj4, lmOpt := a.lm }

/-- `SpatialReference.__init__`.  If either spacing vector sums to zero and
the lower-left corner is not fully supplied, a diagnostic is printed (the
returned `Bool`), the lower-left corner falls back to `(0, 0)` and the
upper-left inputs are discarded; then `set_spatialreference` runs. -/
noncomputable def srInit (a : InitArgs) : Except PyErr (SR × Bool) :=
  let args : Option ℝ × Option ℝ × Option ℝ × Option ℝ × Bool :=
    if (a.delr.sum = 0 ∨ a.delc.sum = 0) ∧ (a.xll = none ∨ a.yll = none) then
      (none, none, some 0, some 0, true)
    else (a.xul, a.yul, a.xll, a.yll, false)
  (a.srBase.set_spatialreference args.1 args.2.1 args.2.2.1 args.2.2.2.1
      a.rotation).map
    (fun sr => (sr, args.2.2.2.2))

/-! ### Attribute setting: data descriptors and `__setattr__` -/

/-- The read-only `@property` names of `SpatialReference`.  For these,
`object.__setattr__` invokes `property.__set__`, which raises
`AttributeError` because no setter is defined. -/
def data_descriptors : List String :=
  ["proj4_str", "epsg", "units", "length_multiplier", "model_length_units",
   "bounds", "attribute_dict", "nrow", "ncol", "theta", "xedge", "yedge",
   "xgrid", "ygrid", "xcenter", "ycenter", "ycentergrid", "xcentergrid",
   "vertices"]

/-- `object.__setattr__(self, key, value)` restricted to its success/failure
behaviour: fails exactly on the getter-only properties of the class. -/
def objectSetattr (key : String) : Except PyErr Unit :=
  if key ∈ data_descriptors then .error .attributeError else .ok ()

/-- A `SpatialReference` instance together with its lazily cached derived
grids (`_xgrid`, `_ygrid`, `_xcentergrid`, `_ycentergrid`, `_vertices`);
`none` is the invalidated (`None`) state. -/
structure SRState where
  core : SR
  xgridC : Option (List (List ℝ)) := none
  ygridC : Option (List (List ℝ)) := none
  xcentergridC : Option (List (List ℝ)) := none
  ycentergridC : Option (List (List ℝ)) := none
  verticesC : Option (List (List (ℝ × ℝ))) := none

/-- `SpatialReference._reset()`: invalidate every cached derived grid. -/
def SRState.reset (st : SRState) : SRState :=
  { st with xgridC := none, ygridC := none, xcentergridC := none,
            ycentergridC := none, verticesC := none }

/-- `sr.rotation = v` through `__setattr__`: store the float, re-derive the
complementary corner via `set_origin` (which evaluates `length_multiplier`,
hence the `Except`), and reset the caches. -/
noncomputable def SRState.setRotation (st : SRState) (v : ℝ) : Except PyErr SRState :=
  let core := { st.core with rotation := v }
  match core.length_multiplier with
  | .error e => .error e
  | .ok _ => .ok ({ st with core := core.setOriginSelf }).reset

/-- `sr.xul = v` through `__setattr__`: store the float and reset the caches
(no `set_origin` call on this branch). -/
def SRState.setXul (st : SRState) (v : ℝ) : SRState :=
  ({ st with core := { st.core with xul := v } }).reset

/-- `sr.yul = v` through `__setattr__`. -/
def SRState.setYul (st : SRState) (v : ℝ) : SRState :=
  ({ st with core := { st.core with yul := v } }).reset

/-- `sr.xll = v` through `__setattr__`. -/
def SRState.setXll (st : SRState) (v : ℝ) : SRState :=
  ({ st with core := { st.core with xll := v } }).reset

/-- `sr.yll = v` through `__setattr__`. -/
def SRState.setYll (st : SRState) (v : ℝ) : SRState :=
  ({ st with core := { st.core with yll := v } }).reset

/-- `sr.units = v` through `__setattr__`: lower-case, assert supported, store
in `_units`, reset the caches. -/
def SRState.setUnits (st : SRState) (v : String) : Except PyErr SRState :=
  if pyLower v ∈ supported_units then
    .ok (({ st with core := { st.core with unitsOpt := some (pyLower v) } }).reset)
  else .error .assertionError

/-- `sr.length_multiplier = v` through `__setattr__`: the branch first calls
`object.__setattr__(self, "length_multiplier", float(v))`, but
`length_multiplier` is a getter-only property, so this raises
`AttributeError` before the `set_origin` call on the same branch. -/
noncomputable def SRState.setLengthMultiplier (st : SRState) (_v : ℝ) : Except PyErr SRState :=
  match objectSetattr "length_multiplier" with
  | .error e => .error e
  | .ok _ =>
    match st.core.length_multiplier with
    | .error e => .error e
    | .ok _ => .ok ({ st with core := st.core.setOriginSelf }).reset

/-- The `xcentergrid` property: return the cache if present, else run
`_set_xycentergrid`, which fills both center-grid caches. -/
noncomputable def SRState.getXcentergrid (st : SRState) : List (List ℝ) × SRState :=
  match st.xcentergridC with
  | some g => (g, st)
  | none =>
    (st.core.xcentergrid,
     { st with xcentergridC := some st.core.xcentergrid,
               ycentergridC := some st.core.ycentergrid })

/-- The `xgrid` property: return the cache if present, else run `_set_xygrid`,
which fills both edge-grid caches. -/
noncomputable def SRState.getXgrid (st : SRState) : List (List ℝ) × SRState :=
  match st.xgridC with
  | some g => (g, st)
  | none =>
    (st.core.xgrid,
     { st with xgridC := some st.core.xgrid, ygridC := some st.core.ygrid })

/-- The `vertices` property: return the cache if present, else run
`_set_vertices`. -/
noncomputable def SRState.getVertices (st : SRState) : List (List (ℝ × ℝ)) × SRState :=
  match st.verticesC with
  | some v => (v, st)
  | none => (st.core.verticesAll, { st with verticesC := some st.core.verticesAll })

/-- The C4 behaviour of attribute mutation, as the code implements it:
mutating `rotation` stores the value, eagerly re-derives the complementary
corner via `set_origin` and invalidates every cached grid; mutating an anchor
coordinate or the units stores the value and invalidates every cached grid
but does *not* eagerly recompute the complementary corner (`xll` is left
untouched by a `xul` mutation — it is refreshed by the next `transform`);
mutating `length_multiplier` raises `AttributeError` because the attribute is
a getter-only property; and each invalidated cache is lazily rebuilt from the
current frame parameters on the next read. -/
def mutationSpec (st : SRState) (v : ℝ) (u : String) : Prop :=
  st.setRotation v = .ok { core := ({ st.core with rotation := v }).setOriginSelf } ∧
  st.setXul v = { core := { st.core with xul := v } } ∧
  (st.setXul v).core.xll = st.core.xll ∧
  st.setUnits u = .ok { core := { st.core with unitsOpt := some (pyLower u) } } ∧
  st.setLengthMultiplier v = .error .attributeError ∧
  (∀ s : SRState, s.xcentergridC = none →
    s.getXcentergrid = (s.core.xcentergrid,
      { s with xcentergridC := some s.core.xcentergrid,
               ycentergridC := some s.core.ycentergrid })) ∧
  (∀ s : SRState, s.xgridC = none →
    s.getXgrid = (s.core.xgrid,
      { s with xgridC := some s.core.xgrid, ygridC := some s.core.ygrid })) ∧
  (∀ s : SRState, s.verticesC = none →
    s.getVertices = (s.core.verticesAll,
      { s with verticesC := some s.core.verticesAll }))

/-! ### `SpatialReferenceUnstructured.__init__` -/

/-- The shape information of the `SpatialReferenceUnstructured` constructor
arguments that its topology assertions inspect. -/
structure SRUArgs where
  xcLen : ℕ
  ycLen : ℕ
  ivertsLen : ℕ
  ncpl : List ℕ
  layered : Bool := true
  epsgIsSome : Bool := false

/-- `SpatialReferenceUnstructured.__init__`.  Its `__setattr__` override
delegates every assignment to `object.__setattr__`; the assignments are
modelled in source order by their success/failure, followed by the topology
assertions.  `epsg` (and later `length_multiplier`) are getter-only
properties inherited from `SpatialReference`. -/
def sruInit (a : SRUArgs) : Except PyErr Unit := do
  objectSetattr "xc"
  objectSetattr "yc"
  objectSetattr "verts"
  objectSetattr "iverts"
  objectSetattr "ncpl"
  objectSetattr "layered"
  objectSetattr "lenuni"
  objectSetattr "_proj4_str"
  objectSetattr "epsg"
  if a.epsgIsSome then objectSetattr "_proj4_str"
  objectSetattr "supported_units"
  objectSetattr "_units"
  objectSetattr "length_multiplier"
  objectSetattr "xul"
  objectSetattr "yul"
  objectSetattr "rotation"
  if a.layered then
    if ¬ (a.ncpl.all fun n => n = a.ivertsLen) then throw .assertionError
    else if a.xcLen ≠ a.ncpl.headD 0 then throw .assertionError
    else if a.ycLen ≠ a.ncpl.headD 0 then throw .assertionError
    else pure ()
  else
    if a.ivertsLen ≠ a.ncpl.sum then throw .assertionError
    else if a.xcLen ≠ a.ncpl.sum then throw .assertionError
    else if a.ycLen ≠ a.ncpl.sum then throw .assertionError
    else pure ()

/-! ### Statement bundles for the larger claims -/

/-- The C7 characterisation of the edge/center arrays: the column edge array
is `0` followed by the cumulative sums of `delr` (length `ncol + 1`), column
center `i` is the cumulative sum through `i` minus half of entry `i`; the row
edge array runs from the total column length down to `0`, row center `i` is
total length minus cumulative sum plus half-spacing; and on both axes
`center[i]` lies strictly between `edge[i]` and `edge[i+1]`. -/
def edgeCenterSpec (sr : SR) : Prop :=
  sr.get_xedge_array.length = sr.ncol + 1 ∧
  sr.get_xcenter_array.length = sr.ncol ∧
  sr.get_yedge_array.length = sr.nrow + 1 ∧
  sr.get_ycenter_array.length = sr.nrow ∧
  sr.get_xedge_array.getD 0 0 = 0 ∧
  (∀ i, i ≤ sr.ncol → sr.get_xedge_array.getD i 0 = sumTake sr.delr i) ∧
  (∀ i, i < sr.ncol →
    sr.get_xcenter_array.getD i 0 = sumTake sr.delr (i + 1) - 0.5 * sr.delr.getD i 0) ∧
  sr.get_yedge_array.getD 0 0 = sr.delc.sum ∧
  sr.get_yedge_array.getD sr.nrow 0 = 0 ∧
  (∀ i, i ≤ sr.nrow →
    sr.get_yedge_array.getD i 0 = sr.delc.sum - sumTake sr.delc i) ∧
  (∀ i, i < sr.nrow →
    sr.get_ycenter_array.getD i 0
      = sr.delc.sum - sumTake sr.delc (i + 1) + 0.5 * sr.delc.getD i 0) ∧
  (∀ i, i < sr.ncol →
    sr.get_xedge_array.getD i 0 < sr.get_xcenter_array.getD i 0 ∧
    sr.get_xcenter_array.getD i 0 < sr.get_xedge_array.getD (i + 1) 0) ∧
  (∀ i, i < sr.nrow →
    sr.get_yedge_array.getD (i + 1) 0 < sr.get_ycenter_array.getD i 0 ∧
    sr.get_ycenter_array.getD i 0 < sr.get_yedge_array.getD i 0)

/-! ### Concrete frames used by witnesses and counterexamples -/

/-- A 2-column, 1-row frame with strictly positive spacings. -/
def srSpacing : SR :=
  { delr := [1, 2], delc := [3], lenuni := 2, xul := 0, yul := 3, xll := 0,
    yll := 0, rotation := 0, origin_loc := .ul, unitsOpt := some "meters",
    proj4Opt := none, lmOpt := some 1 }

/-- A 2-column, 1-row frame anchored at the lower-left origin, unrotated. -/
def srRot0 : SR :=
  { delr := [1, 1], delc := [1], lenuni := 2, xul := 0, yul := 1, xll := 0,
    yll := 0, rotation := 0, origin_loc := .ll, unitsOpt := some "meters",
    proj4Opt := none, lmOpt := some 1 }

/-- The same frame as `srRot0` rotated by 180°. -/
def srRot180 : SR := { srRot0 with rotation := 180 }

/-- A rotated frame with lower-left corner authoritative and an explicit
multiplier. -/
def srAnchor : SR :=
  { delr := [1, 2], delc := [3, 4], lenuni := 2, xul := 0, yul := 0, xll := 5,
    yll := 6, rotation := 30, origin_loc := .ll, unitsOpt := some "meters",
    proj4Opt := none, lmOpt := some 2 }

/-- A frame with model units feet (`lenuni = 1`), explicit reference units
meters, and no explicit multiplier. -/
def srFeetMeters : SR :=
  { delr := [10], delc := [10], lenuni := 1, xul := 0, yul := 0, xll := 0,
    yll := 0, rotation := 0, origin_loc := .ul, unitsOpt := some "meters",
    proj4Opt := none, lmOpt := none }

/-- A freshly constructed state around `srSpacing` (all caches empty). -/
def stDemo : SRState := { core := srSpacing }

/-- Constructor arguments with a degenerate `delc` (sums to zero), a
non-degenerate `delr`, an upper-left corner supplied and no lower-left
corner. -/
def initDegenC : InitArgs :=
  { delr := [1], delc := [0], xul := some 5, yul := some 7,
    units := some "meters", lm := some 1 }

/-- Constructor arguments with *both* `xul` and `xll` supplied, but
degenerate spacings and no `yll`. -/
def initBothX : InitArgs :=
  { delr := [0], delc := [0], xul := some 1, xll := some 2,
    units := some "meters", lm := some 1 }

/-- The frame produced by the degenerate-spacing fallback on `initDegenC` and
`initBothX`-like inputs: lower-left anchor `(0, 0)`, upper-left inputs
discarded. -/
def srFallback (delr delc : List ℝ) : SR :=
  { delr := delr, delc := delc, lenuni := 2, xul := 0, yul := 0, xll := 0,
    yll := 0, rotation := 0, origin_loc := .ll, unitsOpt := some "meters",
    proj4Opt := none, lmOpt := some 1 }

/-- Constructor arguments with non-degenerate spacings and only the
upper-left corner supplied. -/
def initHonor : InitArgs :=
  { delr := [1], delc := [2], xul := some 5, yul := some 7,
    units := some "meters", lm := some 1 }

/-- The frame `initHonor` constructs: the supplied upper-left corner is
honored and the lower-left corner derived (rotation 0, total column length
2, multiplier 1). -/
def srHonorRes : SR :=
  { delr := [1], delc := [2], lenuni := 2, xul := 5, yul := 7, xll := 5,
    yll := 5, rotation := 0, origin_loc := .ul, unitsOpt := some "meters",
    proj4Opt := none, lmOpt := some 1 }

/-! ## Theorems -/

/-! ### List-level helper lemmas -/

theorem accumulate_length (l : List ℝ) : (accumulate l).length = l.length := by
  induction l with
  | nil => rfl
  | cons x xs ih => simp [accumulate, ih]

theorem sumTake_cons (x : ℝ) (xs : List ℝ) (n : ℕ) :
    sumTake (x :: xs) (n + 1) = x + sumTake xs n := by
  simp [sumTake]

theorem getD_map (f : ℝ → ℝ) (l : List ℝ) (i : ℕ) (h : i < l.length) :
    (l.map f).getD i 0 = f (l.getD i 0) := by
  rw [List.getD_eq_getElem _ _ (by simpa using h), List.getD_eq_getElem _ _ h]
  simp

theorem zipWith_getD (f : ℝ → ℝ → ℝ) (l₁ l₂ : List ℝ) (i : ℕ)
    (h₁ : i < l₁.length) (h₂ : i < l₂.length) :
    (List.zipWith f l₁ l₂).getD i 0 = f (l₁.getD i 0) (l₂.getD i 0) := by
  have hz : i < (List.zipWith f l₁ l₂).length := by
    rw [List.length_zipWith]; omega
  rw [List.getD_eq_getElem _ _ hz, List.getD_eq_getElem _ _ h₁,
    List.getD_eq_getElem _ _ h₂]
  simp

theorem accumulate_getD (l : List ℝ) (i : ℕ) (h : i < l.length) :
    (accumulate l).getD i 0 = sumTake l (i + 1) := by
  induction l generalizing i with
  | nil => simp at h
  | cons x xs ih =>
    cases i with
    | zero => simp [accumulate, sumTake_cons, sumTake]
    | succ j =>
      have hj : j < xs.length := by simpa using h
      have hj' : j < (accumulate xs).length := by rw [accumulate_length]; exact hj
      simp only [accumulate, List.getD_cons_succ]
      rw [getD_map _ _ _ hj', ih j hj, sumTake_cons]

theorem sumTake_succ (l : List ℝ) (i : ℕ) (h : i < l.length) :
    sumTake l (i + 1) = sumTake l i + l.getD i 0 := by
  induction l generalizing i with
  | nil => simp at h
  | cons x xs ih =>
    cases i with
    | zero => simp [sumTake_cons, sumTake]
    | succ j =>
      have hj : j < xs.length := by simpa using h
      rw [sumTake_cons, sumTake_cons, ih j hj, List.getD_cons_succ]
      ring

theorem sumTake_length (l : List ℝ) : sumTake l l.length = l.sum := by
  simp [sumTake]

theorem getD_pos (l : List ℝ) (hl : ∀ d ∈ l, 0 < d) (i : ℕ) (h : i < l.length) :
    0 < l.getD i 0 := by
  rw [List.getD_eq_getElem _ _ h]
  exact hl _ (List.getElem_mem h)

/-! ### `set_origin` book-keeping lemmas -/

@[simp] theorem set_origin_delr (sr : SR) (a b c d : Option ℝ) :
    (sr.set_origin a b c d).delr = sr.delr := by
  rcases h : sr.origin_loc <;> simp [SR.set_origin, h]

@[simp] theorem set_origin_delc (sr : SR) (a b c d : Option ℝ) :
    (sr.set_origin a b c d).delc = sr.delc := by
  rcases h : sr.origin_loc <;> simp [SR.set_origin, h]

@[simp] theorem set_origin_lenuni (sr : SR) (a b c d : Option ℝ) :
    (sr.set_origin a b c d).lenuni = sr.lenuni := by
  rcases h : sr.origin_loc <;> simp [SR.set_origin, h]

@[simp] theorem set_origin_rotation (sr : SR) (a b c d : Option ℝ) :
    (sr.set_origin a b c d).rotation = sr.rotation := by
  rcases h : sr.origin_loc <;> simp [SR.set_origin, h]

@[simp] theorem set_origin_origin_loc (sr : SR) (a b c d : Option ℝ) :
    (sr.set_origin a b c d).origin_loc = sr.origin_loc := by
  rcases h : sr.origin_loc <;> simp [SR.set_origin, h]

@[simp] theorem set_origin_unitsOpt (sr : SR) (a b c d : Option ℝ) :
    (sr.set_origin a b c d).unitsOpt = sr.unitsOpt := by
  rcases h : sr.origin_loc <;> simp [SR.set_origin, h]

@[simp] theorem set_origin_proj4Opt (sr : SR) (a b c d : Option ℝ) :
    (sr.set_origin a b c d).proj4Opt = sr.proj4Opt := by
  rcases h : sr.origin_loc <;> simp [SR.set_origin, h]

@[simp] theorem set_origin_lmOpt (sr : SR) (a b c d : Option ℝ) :
    (sr.set_origin a b c d).lmOpt = sr.lmOpt := by
  rcases h : sr.origin_loc <;> simp [SR.set_origin, h]

@[simp] theorem set_origin_length_multiplier (sr : SR) (a b c d : Option ℝ) :
    (sr.set_origin a b c d).length_multiplier = sr.length_multiplier := by
  unfold SR.length_multiplier SR.model_length_units SR.units
  rw [set_origin_lmOpt, set_origin_lenuni, set_origin_unitsOpt, set_origin_proj4Opt]

@[simp] theorem set_origin_lmval (sr : SR) (a b c d : Option ℝ) :
    (sr.set_origin a b c d).lmval = sr.lmval := by
  unfold SR.lmval
  rw [set_origin_length_multiplier]

@[simp] theorem set_origin_theta (sr : SR) (a b c d : Option ℝ) :
    (sr.set_origin a b c d).theta = sr.theta := by
  unfold SR.theta
  rw [set_origin_rotation]

@[simp] theorem set_origin_yedge0 (sr : SR) (a b c d : Option ℝ) :
    (sr.set_origin a b c d).yedge0 = sr.yedge0 := by
  unfold SR.yedge0 SR.get_yedge_array
  rw [set_origin_delc]

theorem yedge0_eq_sum (sr : SR) : sr.yedge0 = sr.delc.sum := rfl

theorem set_origin_xll_of_ll (sr : SR) (h : sr.origin_loc = .ll)
    (a b c d : Option ℝ) : (sr.set_origin a b c d).xll = c.getD 0 := by
  simp [SR.set_origin, h]

theorem set_origin_yll_of_ll (sr : SR) (h : sr.origin_loc = .ll)
    (a b c d : Option ℝ) : (sr.set_origin a b c d).yll = d.getD 0 := by
  simp [SR.set_origin, h]

theorem set_origin_xul_of_ul (sr : SR) (h : sr.origin_loc = .ul)
    (a b c d : Option ℝ) : (sr.set_origin a b c d).xul = a.getD 0 := by
  simp [SR.set_origin, h]

theorem set_origin_yul_of_ul (sr : SR) (h : sr.origin_loc = .ul)
    (a b c d : Option ℝ) : (sr.set_origin a b c d).yul = b.getD 0 := by
  simp [SR.set_origin, h]

theorem setOriginSelf_xul_ul (sr : SR) (h : sr.origin_loc = .ul) :
    sr.setOriginSelf.xul = sr.xul := by
  simp [SR.setOriginSelf, SR.set_origin, h]

theorem setOriginSelf_yul_ul (sr : SR) (h : sr.origin_loc = .ul) :
    sr.setOriginSelf.yul = sr.yul := by
  simp [SR.setOriginSelf, SR.set_origin, h]

theorem setOriginSelf_xll_ul (sr : SR) (h : sr.origin_loc = .ul) :
    sr.setOriginSelf.xll = sr.xul - Real.sin sr.theta * sr.yedge0 * sr.lmval := by
  simp [SR.setOriginSelf, SR.set_origin, h]

theorem setOriginSelf_yll_ul (sr : SR) (h : sr.origin_loc = .ul) :
    sr.setOriginSelf.yll = sr.yul - Real.cos sr.theta * sr.yedge0 * sr.lmval := by
  simp [SR.setOriginSelf, SR.set_origin, h]

theorem setOriginSelf_xll_ll (sr : SR) (h : sr.origin_loc = .ll) :
    sr.setOriginSelf.xll = sr.xll := by
  simp [SR.setOriginSelf, SR.set_origin, h]

theorem setOriginSelf_yll_ll (sr : SR) (h : sr.origin_loc = .ll) :
    sr.setOriginSelf.yll = sr.yll := by
  simp [SR.setOriginSelf, SR.set_origin, h]

theorem setOriginSelf_xul_ll (sr : SR) (h : sr.origin_loc = .ll) :
    sr.setOriginSelf.xul = sr.xll + Real.sin sr.theta * sr.yedge0 * sr.lmval := by
  simp [SR.setOriginSelf, SR.set_origin, h]

theorem setOriginSelf_yul_ll (sr : SR) (h : sr.origin_loc = .ll) :
    sr.setOriginSelf.yul = sr.yll + Real.cos sr.theta * sr.yedge0 * sr.lmval := by
  simp [SR.setOriginSelf, SR.set_origin, h]

theorem except_map_eq_ok {α β γ : Type} (f : α → β) (x : Except γ α) (y : β)
    (h : x.map f = .ok y) : ∃ a, x = .ok a ∧ f a = y := by
  cases x with
  | error e => simp [Except.map] at h
  | ok a =>
    refine ⟨a, rfl, ?_⟩
    simpa [Except.map] using h

theorem except_isOk_map {α β γ : Type} (f : α → β) (x : Except γ α) :
    (x.map f).isOk = x.isOk := by
  cases x <;> rfl

/-- `length_multiplier` only reads the unit configuration, so it is unchanged
by updating `origin_loc` and `rotation`. -/
theorem length_multiplier_update (sr : SR) (loc : OriginLoc) (rot : ℝ) :
    ({ sr with origin_loc := loc, rotation := rot } : SR).length_multiplier
      = sr.length_multiplier := rfl

/-- `set_spatialreference` with only the lower-left corner supplied selects
the lower-left origin and derives the upper-left corner. -/
theorem set_sr_ll_form (sr0 : SR) (rot x0 y0 : ℝ) :
    sr0.set_spatialreference none none (some x0) (some y0) rot
      = match ({ sr0 with origin_loc := OriginLoc.ll, rotation := rot } : SR).length_multiplier with
        | .error e => .error e
        | .ok _ =>
          .ok (({ sr0 with origin_loc := OriginLoc.ll, rotation := rot } : SR).set_origin
            none none (some x0) (some y0)) := by
  simp [SR.set_spatialreference]

/-- `set_spatialreference` with only the upper-left corner supplied selects
the upper-left origin and derives the lower-left corner. -/
theorem set_sr_ul_form (sr0 : SR) (rot u v : ℝ) :
    sr0.set_spatialreference (some u) (some v) none none rot
      = match ({ sr0 with origin_loc := OriginLoc.ul, rotation := rot } : SR).length_multiplier with
        | .error e => .error e
        | .ok _ =>
          .ok (({ sr0 with origin_loc := OriginLoc.ul, rotation := rot } : SR).set_origin
            (some u) (some v) none none) := by
  simp [SR.set_spatialreference]

/-- `set_spatialreference` succeeds whenever at most one corner per axis is
supplied and the length multiplier resolves. -/
theorem set_sr_isOk (sr0 : SR) (xu yu xl yl : Option ℝ) (rot m : ℝ)
    (hm : sr0.length_multiplier = .ok m)
    (hx : xu = none ∨ xl = none) (hy : yu = none ∨ yl = none) :
    (sr0.set_spatialreference xu yu xl yl rot).isOk = true := by
  have h1 : ¬ (xu.isSome ∧ xl.isSome) := by
    rcases hx with h | h <;> subst h <;> simp
  have h2 : ¬ (yu.isSome ∧ yl.isSome) := by
    rcases hy with h | h <;> subst h <;> simp
  simp only [SR.set_spatialreference, if_neg h1, if_neg h2]
  rw [length_multiplier_update, hm]
  rfl

/-- Refreshing the origin twice is the same as refreshing it once. -/
theorem setOriginSelf_idem (sr : SR) :
    sr.setOriginSelf.setOriginSelf = sr.setOriginSelf := by
  rcases h : sr.origin_loc <;>
    simp [SR.setOriginSelf, SR.set_origin, h, SR.theta, SR.yedge0,
      SR.get_yedge_array, SR.lmval, SR.length_multiplier,
      SR.model_length_units, SR.units]

/-- `transform` in closed form: scale by the multiplier, translate by the
refreshed lower-left corner, rotate about that corner. -/
theorem transform_rotate_form (sr : SR) (x y : ℝ) :
    sr.transform x y
      = rotate (x * sr.lmval + sr.setOriginSelf.xll)
          (y * sr.lmval + sr.setOriginSelf.yll)
          sr.rotation sr.setOriginSelf.xll sr.setOriginSelf.yll := by
  simp only [SR.transform, SR.setOriginSelf, set_origin_lmval, set_origin_rotation]

/-- Rotation by 0 degrees is the identity. -/
theorem rotate_zero (u v xo yo : ℝ) : rotate u v 0 xo yo = (u, v) := by
  unfold rotate
  simp only [zero_mul, zero_div, Real.cos_zero, Real.sin_zero, Prod.mk.injEq]
  constructor <;> ring

/-- Rotation by 180 degrees is the point reflection about the origin. -/
theorem rotate_180 (u v xo yo : ℝ) : rotate u v 180 xo yo = (2 * xo - u, 2 * yo - v) := by
  have h : (180 : ℝ) * Real.pi / 180 = Real.pi := by ring
  simp only [rotate, h, Real.cos_pi, Real.sin_pi, Prod.mk.injEq]
  constructor <;> ring

theorem xcenter_length (sr : SR) : sr.get_xcenter_array.length = sr.ncol := by
  simp [SR.get_xcenter_array, accumulate_length, SR.ncol]

theorem ycenter_length (sr : SR) : sr.get_ycenter_array.length = sr.nrow := by
  simp [SR.get_ycenter_array, accumulate_length, SR.nrow]

/-! ### Indexed characterisation of the geometry arrays -/

theorem xedge_getD (sr : SR) (i : ℕ) (h : i ≤ sr.ncol) :
    sr.get_xedge_array.getD i 0 = sumTake sr.delr i := by
  cases i with
  | zero => rfl
  | succ j =>
    have hj : j < sr.delr.length := h
    simp only [SR.get_xedge_array, List.getD_cons_succ]
    exact accumulate_getD _ _ hj

theorem xcenter_getD (sr : SR) (i : ℕ) (h : i < sr.ncol) :
    sr.get_xcenter_array.getD i 0
      = sumTake sr.delr (i + 1) - 0.5 * sr.delr.getD i 0 := by
  have h' : i < (accumulate sr.delr).length := by
    rw [accumulate_length]; exact h
  rw [SR.get_xcenter_array, zipWith_getD _ _ _ _ h' h, accumulate_getD _ _ h]

theorem yedge_getD (sr : SR) (i : ℕ) (h : i ≤ sr.nrow) :
    sr.get_yedge_array.getD i 0 = sr.delc.sum - sumTake sr.delc i := by
  cases i with
  | zero => simp [SR.get_yedge_array, sumTake]
  | succ j =>
    have hj : j < sr.delc.length := h
    have hj' : j < (accumulate sr.delc).length := by
      rw [accumulate_length]; exact hj
    simp only [SR.get_yedge_array, List.getD_cons_succ]
    rw [getD_map _ _ _ hj', accumulate_getD _ _ hj]

theorem ycenter_getD (sr : SR) (i : ℕ) (h : i < sr.nrow) :
    sr.get_ycenter_array.getD i 0
      = sr.delc.sum - sumTake sr.delc (i + 1) + 0.5 * sr.delc.getD i 0 := by
  have h' : i < (accumulate sr.delc).length := by
    rw [accumulate_length]; exact h
  rw [SR.get_ycenter_array, zipWith_getD _ _ _ _ h' h, accumulate_getD _ _ h]
  ring

/-- C6: `rotate(rotate(p, θ, o), −θ, o) = p` in real arithmetic, and positive θ
is counter-clockwise: rotating `(xo+1, yo)` by 90° about `(xo, yo)` yields
`(xo, yo+1)`. -/
theorem rotate_roundtrip_ccw (x y theta xo yo : ℝ) :
    rotate (rotate x y theta xo yo).1 (rotate x y theta xo yo).2 (-theta) xo yo = (x, y) ∧
    rotate (xo + 1) yo 90 xo yo = (xo, yo + 1) := by
  constructor
  · have hneg : -theta * Real.pi / 180 = -(theta * Real.pi / 180) := by ring
    unfold rotate
    simp only [hneg, Real.cos_neg, Real.sin_neg, Prod.mk.injEq]
    constructor
    · linear_combination (x - xo) * Real.sin_sq_add_cos_sq (theta * Real.pi / 180)
    · linear_combination (y - yo) * Real.sin_sq_add_cos_sq (theta * Real.pi / 180)
  · have h90 : (90 : ℝ) * Real.pi / 180 = Real.pi / 2 := by ring
    unfold rotate
    simp only [h90, Real.cos_pi_div_two, Real.sin_pi_div_two, Prod.mk.injEq]
    constructor <;> ring

/-- C10: for every argument shape, `SpatialReferenceUnstructured.__init__`
raises `AttributeError` — the unconditional `self.epsg = epsg` assignment hits
the getter-only `epsg` property through the pass-through `__setattr__` — and
it does so before any topology assertion is evaluated: the result is
`AttributeError` (never `AssertionError`) even when the topology data is
inconsistent, so no unstructured frame can be constructed. -/
theorem sruInit_always_attributeError (a : SRUArgs) :
    sruInit a = .error .attributeError := rfl

/-- C9: the length multiplier resolves by precedence — an explicit
`_length_multiplier` always wins; otherwise it is derived from the model
length-unit code and the resolved reference units via the fixed table
feet→meters = 0.3048, feet→feet = 1, meters→feet = 1/0.3048,
meters→meters = 1, centimeters→meters = 1/100, centimeters→feet = 1/30.48,
undefined model units → 1. -/
theorem length_multiplier_resolution (sr : SR) :
    (∀ lm, sr.lmOpt = some lm → sr.length_multiplier = .ok lm) ∧
    (sr.lmOpt = none →
      ((sr.lenuni = 1 → sr.units = .ok "meters" → sr.length_multiplier = .ok 0.3048) ∧
       (sr.lenuni = 1 → sr.units = .ok "feet" → sr.length_multiplier = .ok 1) ∧
       (sr.lenuni = 2 → sr.units = .ok "feet" → sr.length_multiplier = .ok (1 / 0.3048)) ∧
       (sr.lenuni = 2 → sr.units = .ok "meters" → sr.length_multiplier = .ok 1) ∧
       (sr.lenuni = 3 → sr.units = .ok "meters" → sr.length_multiplier = .ok (1 / 100)) ∧
       (sr.lenuni = 3 → sr.units = .ok "feet" → sr.length_multiplier = .ok (1 / 30.48)) ∧
       (sr.lenuni = 0 → sr.length_multiplier = .ok 1))) := by
  constructor
  · intro lm h
    simp [SR.length_multiplier, h]
  · intro h0
    refine ⟨?_, ?_, ?_, ?_, ?_, ?_, ?_⟩ <;>
      first
        | (intro h1 h2
           simp [SR.length_multiplier, SR.model_length_units, lenuni_text, h0, h1, h2])
        | (intro h1
           simp [SR.length_multiplier, SR.model_length_units, lenuni_text, h0, h1])

/-- C1: `transform` scales by the length multiplier, translates by the
lower-left anchor, then rotates counter-clockwise by `rotation` degrees about
that anchor, in that fixed order; it acts element-wise over coordinate
arrays; and whenever rotation = 0 and the multiplier is 1,
`transform(x, y) = (x + xll, y + yll)` exactly, `(xll, yll)` being the
frame's lower-left anchor as refreshed by the transform itself. -/
theorem transform_pipeline (sr : SR) (m x y : ℝ) (xs ys : List ℝ)
    (hm : sr.length_multiplier = .ok m) :
    sr.transform x y
      = rotate (x * m + sr.setOriginSelf.xll) (y * m + sr.setOriginSelf.yll)
          sr.rotation sr.setOriginSelf.xll sr.setOriginSelf.yll ∧
    sr.transformVec xs ys
      = (List.zipWith (fun a b => (sr.transform a b).1) xs ys,
         List.zipWith (fun a b => (sr.transform a b).2) xs ys) ∧
    (sr.rotation = 0 → m = 1 →
      sr.transform x y = (x + sr.setOriginSelf.xll, y + sr.setOriginSelf.yll)) := by
  have hlm : sr.lmval = m := by simp [SR.lmval, hm, Except.toOption]
  refine ⟨by rw [transform_rotate_form, hlm], ?_, ?_⟩
  · simp only [SR.transformVec, rotateVec, SR.transform, SR.setOriginSelf,
      set_origin_lmval, set_origin_rotation, rotate]
    rw [List.zipWith_map, List.zipWith_map]
  · intro h0 h1
    rw [transform_rotate_form, hlm, h1, h0]
    unfold rotate
    simp only [zero_mul, zero_div, Real.cos_zero, Real.sin_zero, Prod.mk.injEq]
    constructor <;> ring

/-- Witness for C1 at a concrete unrotated, multiplier-1 frame. -/
theorem transform_pipeline_witness :
    srSpacing.length_multiplier = .ok 1 ∧ srSpacing.rotation = 0 ∧
    srSpacing.transform 2 3
      = (2 + srSpacing.setOriginSelf.xll, 3 + srSpacing.setOriginSelf.yll) :=
  ⟨rfl, rfl, (transform_pipeline srSpacing 1 2 3 [] [] rfl).2.2 rfl rfl⟩

/-- C2: for every frame whose length multiplier resolves, after recomputing
the complementary corner with `set_origin`, transforming the model-space
upper-left point `(0, delc.sum)` reproduces the frame's upper-left anchor
`(xul, yul)` exactly in real arithmetic — both when the upper-left corner is
authoritative and, symmetrically, when the lower-left corner is authoritative
and the upper-left corner is the derived one. -/
theorem anchor_consistency (sr : SR) (m : ℝ)
    (hm : sr.length_multiplier = .ok m) :
    sr.setOriginSelf.transform 0 sr.delc.sum
      = (sr.setOriginSelf.xul, sr.setOriginSelf.yul) := by
  have hlm : sr.lmval = m := by simp [SR.lmval, hm, Except.toOption]
  have ht : sr.theta = -(sr.rotation * Real.pi / 180) := by
    unfold SR.theta; ring
  have hL : sr.setOriginSelf.delc.sum = sr.delc.sum := by
    rw [SR.setOriginSelf, set_origin_delc]
  rw [show sr.delc.sum = sr.setOriginSelf.delc.sum from hL.symm,
    transform_rotate_form, setOriginSelf_idem]
  have hrot : sr.setOriginSelf.rotation = sr.rotation := by
    rw [SR.setOriginSelf, set_origin_rotation]
  have hlm' : sr.setOriginSelf.lmval = m := by
    rw [SR.setOriginSelf, set_origin_lmval, hlm]
  rcases h : sr.origin_loc with hul | hll
  · rw [setOriginSelf_xll_ul sr h, setOriginSelf_yll_ul sr h,
      setOriginSelf_xul_ul sr h, setOriginSelf_yul_ul sr h, hrot, hlm', hL,
      yedge0_eq_sum, hlm, ht, Real.sin_neg, Real.cos_neg]
    unfold rotate
    simp only [Prod.mk.injEq]
    constructor <;> ring
  · rw [setOriginSelf_xll_ll sr h, setOriginSelf_yll_ll sr h,
      setOriginSelf_xul_ll sr h, setOriginSelf_yul_ll sr h, hrot, hlm', hL,
      yedge0_eq_sum, hlm, ht, Real.sin_neg, Real.cos_neg]
    unfold rotate
    simp only [Prod.mk.injEq]
    constructor <;> ring

/-- Witness for C2 at a concrete frame (lower-left corner authoritative,
rotation 30°, multiplier 2). -/
theorem anchor_consistency_witness :
    srAnchor.length_multiplier = .ok 2 ∧
    srAnchor.setOriginSelf.transform 0 srAnchor.delc.sum
      = (srAnchor.setOriginSelf.xul, srAnchor.setOriginSelf.yul) :=
  ⟨rfl, anchor_consistency srAnchor 2 rfl⟩

/-- C3 (amended): `get_rc` minimises the absolute difference between the
query and the *transformed* center coordinates — the x coordinates of the
first row and the y coordinates of the first column of the transformed
center meshgrid — so the result depends on the rotation in general; when
rotation = 0 the lookup reduces to a nearest match against the
multiplier-scaled, anchor-translated (unrotated) center arrays, as shown
here. -/
theorem get_rc_rotation_zero (sr : SR) (m x y : ℝ)
    (hm : sr.length_multiplier = .ok m) (h0 : sr.rotation = 0)
    (hrow : 0 < sr.nrow) (hcol : 0 < sr.ncol) :
    sr.get_rc x y
      = (argminL (sr.get_ycenter_array.map fun yc =>
            |yc * m + sr.setOriginSelf.yll - y|),
         argminL (sr.get_xcenter_array.map fun xc =>
            |xc * m + sr.setOriginSelf.xll - x|)) := by
  have hlm : sr.lmval = m := by simp [SR.lmval, hm, Except.toOption]
  have htr : ∀ a b, sr.transform a b
      = (a * m + sr.setOriginSelf.xll, b * m + sr.setOriginSelf.yll) := by
    intro a b
    rw [transform_rotate_form, hlm, h0, rotate_zero]
  obtain ⟨yc0, ys, hy⟩ : ∃ yc0 ys, sr.get_ycenter_array = yc0 :: ys := by
    cases hyl : sr.get_ycenter_array with
    | nil =>
      have hl := ycenter_length sr
      rw [hyl] at hl
      simp at hl
      omega
    | cons a l => exact ⟨a, l, rfl⟩
  obtain ⟨xc0, xs, hx⟩ : ∃ xc0 xs, sr.get_xcenter_array = xc0 :: xs := by
    cases hxl : sr.get_xcenter_array with
    | nil =>
      have hl := xcenter_length sr
      rw [hxl] at hl
      simp at hl
      omega
    | cons a l => exact ⟨a, l, rfl⟩
  simp only [SR.get_rc, SR.xcentergrid, SR.ycentergrid, hx, hy,
    List.map_cons, List.headD_cons, List.map_map, Function.comp, htr,
    Prod.mk.injEq]
  constructor <;> rfl

/-- Counterexample to C3 as stated: two frames identical except for the
rotation angle return different columns for the same query point, so the
lookup does not ignore rotation (it compares against transformed center
coordinates, not the unrotated center arrays). -/
theorem get_rc_depends_on_rotation :
    srRot180 = { srRot0 with rotation := 180 } ∧
    (srRot0.get_rc 1.4 0.3).2 = 1 ∧
    (srRot180.get_rc 1.4 0.3).2 = 0 := by
  have hx0 : srRot0.get_xcenter_array = [0.5, 1.5] := by
    norm_num [SR.get_xcenter_array, srRot0, accumulate]
  have hy0 : srRot0.get_ycenter_array = [0.5] := by
    norm_num [SR.get_ycenter_array, srRot0, accumulate]
  have hx1 : srRot180.get_xcenter_array = [0.5, 1.5] := by
    norm_num [SR.get_xcenter_array, srRot180, srRot0, accumulate]
  have hy1 : srRot180.get_ycenter_array = [0.5] := by
    norm_num [SR.get_ycenter_array, srRot180, srRot0, accumulate]
  have htr0 : ∀ a b : ℝ, srRot0.transform a b = (a, b) := by
    intro a b
    show rotate (a * 1 + 0) (b * 1 + 0) 0 0 0 = (a, b)
    rw [rotate_zero]
    norm_num
  have htr1 : ∀ a b : ℝ, srRot180.transform a b = (-a, -b) := by
    intro a b
    show rotate (a * 1 + 0) (b * 1 + 0) 180 0 0 = (-a, -b)
    rw [rotate_180]
    norm_num
  have e1 : |(0.5 : ℝ) - 1.4| = 0.9 := by
    rw [abs_of_nonpos (by norm_num)]
    norm_num
  have e2 : |(1.5 : ℝ) - 1.4| = 0.1 := by
    rw [abs_of_nonneg (by norm_num)]
    norm_num
  have e3 : |(-0.5 : ℝ) - 1.4| = 1.9 := by
    rw [abs_of_nonpos (by norm_num)]
    norm_num
  have e4 : |(-1.5 : ℝ) - 1.4| = 2.9 := by
    rw [abs_of_nonpos (by norm_num)]
    norm_num
  refine ⟨rfl, ?_, ?_⟩
  · simp only [SR.get_rc, SR.xcentergrid, hx0, hy0, List.map_cons,
      List.map_nil, List.headD_cons, htr0]
    rw [e1, e2]
    norm_num [argminL, List.foldl]
  · simp only [SR.get_rc, SR.xcentergrid, hx1, hy1, List.map_cons,
      List.map_nil, List.headD_cons, htr1]
    rw [e3, e4]
    norm_num [argminL, List.foldl]

/-- Witness for the amended C3 at a concrete unrotated frame. -/
theorem get_rc_rotation_zero_witness :
    srRot0.length_multiplier = .ok 1 ∧ srRot0.rotation = 0 ∧
    0 < srRot0.nrow ∧ 0 < srRot0.ncol ∧
    srRot0.get_rc 1.4 0.3
      = (argminL (srRot0.get_ycenter_array.map fun yc =>
            |yc * 1 + srRot0.setOriginSelf.yll - 0.3|),
         argminL (srRot0.get_xcenter_array.map fun xc =>
            |xc * 1 + srRot0.setOriginSelf.xll - 1.4|)) :=
  ⟨rfl, rfl, by decide, by decide,
   get_rc_rotation_zero srRot0 1 1.4 0.3 rfl rfl (by decide) (by decide)⟩

/-- C7: for all-positive spacing vectors, the column edge array is `0`
followed by the cumulative sums of `delr` (length `ncol + 1`) and column
center `i` is the cumulative sum through `i` minus half of entry `i`; the row
edge array runs from the total column length down to `0` and row center `i`
equals total length minus cumulative sum plus half-spacing; on both axes,
`center[i]` lies strictly between `edge[i]` and `edge[i+1]`. -/
theorem edge_center_arrays (sr : SR)
    (hr : ∀ d ∈ sr.delr, 0 < d) (hc : ∀ d ∈ sr.delc, 0 < d) :
    edgeCenterSpec sr := by
  refine ⟨?_, ?_, ?_, ?_, rfl, fun i h => xedge_getD sr i h,
    fun i h => xcenter_getD sr i h, ?_, ?_, fun i h => yedge_getD sr i h,
    fun i h => ycenter_getD sr i h, ?_, ?_⟩
  · simp [SR.get_xedge_array, accumulate_length, SR.ncol]
  · simp [SR.get_xcenter_array, accumulate_length, SR.ncol]
  · simp [SR.get_yedge_array, accumulate_length, SR.nrow]
  · simp [SR.get_ycenter_array, accumulate_length, SR.nrow]
  · simp [SR.get_yedge_array, sumTake]
  · rw [yedge_getD sr sr.nrow le_rfl,
      show sr.nrow = sr.delc.length from rfl, sumTake_length]
    ring
  · intro i h
    have hd : 0 < sr.delr.getD i 0 := getD_pos _ hr i h
    rw [xedge_getD sr i h.le, xcenter_getD sr i h,
      xedge_getD sr (i + 1) h, sumTake_succ _ _ h]
    constructor <;> linarith
  · intro i h
    have hd : 0 < sr.delc.getD i 0 := getD_pos _ hc i h
    rw [yedge_getD sr (i + 1) h, ycenter_getD sr i h,
      yedge_getD sr i h.le, sumTake_succ _ _ h]
    constructor <;> linarith

/-- Witness for C7 at the concrete spacings `delr = [1, 2]`, `delc = [3]`. -/
theorem edge_center_arrays_witness :
    (∀ d ∈ srSpacing.delr, 0 < d) ∧ (∀ d ∈ srSpacing.delc, 0 < d) ∧
    edgeCenterSpec srSpacing := by
  have hr : ∀ d ∈ srSpacing.delr, 0 < d := by
    intro d hd
    fin_cases hd <;> norm_num
  have hc : ∀ d ∈ srSpacing.delc, 0 < d := by
    intro d hd
    fin_cases hd
    norm_num
  exact ⟨hr, hc, edge_center_arrays srSpacing hr hc⟩

/-- Witness for C9 at a concrete frame: model units feet, reference units
meters, no explicit override, multiplier 0.3048. -/
theorem length_multiplier_resolution_witness :
    srFeetMeters.lmOpt = none ∧ srFeetMeters.lenuni = 1 ∧
    srFeetMeters.units = .ok "meters" ∧
    srFeetMeters.length_multiplier = .ok 0.3048 :=
  ⟨rfl, rfl, rfl,
   ((length_multiplier_resolution srFeetMeters).2 rfl).1 rfl rfl⟩

/-- Concrete evaluation of the constructor on `initHonor` (helper for the C5
witness). -/
theorem srInit_honor_eval : srInit initHonor = .ok (srHonorRes, false) := by
  have hfb : ¬ ((initHonor.delr.sum = 0 ∨ initHonor.delc.sum = 0) ∧
      (initHonor.xll = none ∨ initHonor.yll = none)) := by
    rintro ⟨hor, _⟩
    rcases hor with h | h <;> norm_num [initHonor] at h
  simp only [srInit]
  rw [if_neg hfb]
  rw [show initHonor.xul = some 5 from rfl, show initHonor.yul = some 7 from rfl,
    show initHonor.xll = (none : Option ℝ) from rfl,
    show initHonor.yll = (none : Option ℝ) from rfl,
    set_sr_ul_form, length_multiplier_update,
    show initHonor.srBase.length_multiplier = .ok 1 from rfl]
  simp only [Except.map]
  norm_num [SR.set_origin, SR.theta, SR.yedge0, SR.get_yedge_array,
    SR.lmval, SR.length_multiplier, initHonor, InitArgs.srBase, srHonorRes,
    accumulate, SR.mk.injEq, Real.sin_zero, Real.cos_zero, Except.toOption]

/-- C5 (amended): the degenerate-spacing fallback fires exactly when at least
one spacing vector sums to zero and the lower-left corner is not fully
supplied — not only when both sums are zero; it then anchors at lower-left
`(0, 0)` with the lower-left corner authoritative, discards the supplied
upper-left inputs (the constructor outcome does not depend on them at all)
and emits the diagnostic; when the fallback does not fire no diagnostic is
emitted, and when both spacing sums are nonzero and only the upper-left
corner is supplied, those inputs are honored. -/
theorem init_degenerate_fallback :
    (∀ a : InitArgs,
      (a.delr.sum = 0 ∨ a.delc.sum = 0) → (a.xll = none ∨ a.yll = none) →
      (srInit a
          = (a.srBase.set_spatialreference none none (some 0) (some 0)
              a.rotation).map (fun sr => (sr, true)) ∧
       ∀ sr d, srInit a = .ok (sr, d) →
         d = true ∧ sr.origin_loc = .ll ∧ sr.xll = 0 ∧ sr.yll = 0)) ∧
    (∀ a : InitArgs,
      ¬ ((a.delr.sum = 0 ∨ a.delc.sum = 0) ∧ (a.xll = none ∨ a.yll = none)) →
      ∀ sr d, srInit a = .ok (sr, d) → d = false) ∧
    (∀ (a : InitArgs) (u v : ℝ), a.delr.sum ≠ 0 → a.delc.sum ≠ 0 →
      a.xll = none → a.yll = none → a.xul = some u → a.yul = some v →
      ∀ sr d, srInit a = .ok (sr, d) → sr.xul = u ∧ sr.yul = v ∧ d = false) := by
  refine ⟨?_, ?_, ?_⟩
  · intro a h1 h2
    have hfb : (a.delr.sum = 0 ∨ a.delc.sum = 0) ∧
        (a.xll = none ∨ a.yll = none) := ⟨h1, h2⟩
    have he : srInit a
        = (a.srBase.set_spatialreference none none (some 0) (some 0)
            a.rotation).map (fun sr => (sr, true)) := by
      simp only [srInit]
      rw [if_pos hfb]
    refine ⟨he, ?_⟩
    intro sr d hok
    rw [he] at hok
    obtain ⟨s, hs, hf⟩ := except_map_eq_ok _ _ _ hok
    have hd : d = true := by
      simpa using (congrArg Prod.snd hf).symm
    have hsr : sr = s := by
      simpa using (congrArg Prod.fst hf).symm
    rw [set_sr_ll_form, length_multiplier_update] at hs
    rcases hlm : a.srBase.length_multiplier with e | mm
    · rw [hlm] at hs
      simp at hs
    · rw [hlm] at hs
      simp only [Except.ok.injEq] at hs
      subst hsr
      rw [← hs]
      refine ⟨hd, ?_, ?_, ?_⟩
      · rw [set_origin_origin_loc]
      · rw [set_origin_xll_of_ll _ rfl]
        rfl
      · rw [set_origin_yll_of_ll _ rfl]
        rfl
  · intro a h sr d hok
    simp only [srInit] at hok
    rw [if_neg h] at hok
    obtain ⟨s, hs, hf⟩ := except_map_eq_ok _ _ _ hok
    simpa using (congrArg Prod.snd hf).symm
  · intro a u v h1 h2 h3 h4 h5 h6 sr d hok
    have hfb : ¬ ((a.delr.sum = 0 ∨ a.delc.sum = 0) ∧
        (a.xll = none ∨ a.yll = none)) := by
      rintro ⟨hor, _⟩
      rcases hor with h | h
      · exact h1 h
      · exact h2 h
    simp only [srInit] at hok
    rw [if_neg hfb] at hok
    simp only [h3, h4, h5, h6] at hok
    obtain ⟨s, hs, hf⟩ := except_map_eq_ok _ _ _ hok
    have hd : d = false := by
      simpa using (congrArg Prod.snd hf).symm
    have hsr : sr = s := by
      simpa using (congrArg Prod.fst hf).symm
    rw [set_sr_ul_form, length_multiplier_update] at hs
    rcases hlm : a.srBase.length_multiplier with e | mm
    · rw [hlm] at hs
      simp at hs
    · rw [hlm] at hs
      simp only [Except.ok.injEq] at hs
      subst hsr
      rw [← hs]
      refine ⟨?_, ?_, hd⟩
      · rw [set_origin_xul_of_ul _ rfl]
        rfl
      · rw [set_origin_yul_of_ul _ rfl]
        rfl

/-- Counterexample to C5 as stated: `initDegenC` has `delr.sum = 1 ≠ 0` (so
the spacing sums are *not* both zero) and supplies `xul = 5`, yet because
`delc` sums to zero and no lower-left corner is given, the constructor emits
the diagnostic, discards the supplied upper-left inputs and anchors at
`(0, 0)` — the claim would require `xul` to be honored and no diagnostic. -/
theorem init_fallback_on_single_degenerate_axis :
    srInit initDegenC = .ok (srFallback [1] [0], true) ∧
    initDegenC.delr.sum ≠ 0 ∧ initDegenC.xul = some 5 := by
  refine ⟨?_, by norm_num [initDegenC], rfl⟩
  have hc : (initDegenC.delr.sum = 0 ∨ initDegenC.delc.sum = 0) ∧
      (initDegenC.xll = none ∨ initDegenC.yll = none) :=
    ⟨Or.inr (by norm_num [initDegenC]), Or.inl rfl⟩
  simp only [srInit]
  rw [if_pos hc]
  rw [set_sr_ll_form, length_multiplier_update,
    show initDegenC.srBase.length_multiplier = .ok 1 from rfl]
  simp only [Except.map]
  norm_num [SR.set_origin, SR.theta, SR.yedge0, SR.get_yedge_array,
    SR.lmval, SR.length_multiplier, initDegenC, InitArgs.srBase, srFallback,
    accumulate, SR.mk.injEq, Real.sin_zero, Real.cos_zero, Except.toOption]

/-- Witness for the amended C5: a frame with non-degenerate spacings and
only the upper-left corner supplied honors that corner and emits no
diagnostic. -/
theorem init_degenerate_fallback_witness :
    initHonor.delr.sum ≠ 0 ∧ initHonor.delc.sum ≠ 0 ∧
    initHonor.xll = none ∧ initHonor.yll = none ∧
    initHonor.xul = some 5 ∧ initHonor.yul = some 7 ∧
    srInit initHonor = .ok (srHonorRes, false) ∧
    (srHonorRes.xul = 5 ∧ srHonorRes.yul = 7 ∧ false = false) :=
  ⟨by norm_num [initHonor], by norm_num [initHonor], rfl, rfl, rfl, rfl,
   srInit_honor_eval,
   init_degenerate_fallback.2.2 initHonor 5 7 (by norm_num [initHonor])
     (by norm_num [initHonor]) rfl rfl rfl rfl srHonorRes false
     srInit_honor_eval⟩

/-- C8 (amended): `set_spatialreference` raises a ValueError whenever both
`xul` and `xll` are supplied, or both `yul` and `yll` are supplied (each axis
checked independently, x first), before any geometry is computed; the same
check fires through the constructor provided both spacing sums are nonzero
(otherwise the degenerate-spacing fallback may discard the corners before
the check runs); and supplying at most one corner per axis never raises a
ValueError — the constructor succeeds whenever the length multiplier
resolves. -/
theorem ambiguous_anchor_check :
    (∀ (sr0 : SR) (u w rot : ℝ) (b d : Option ℝ),
      sr0.set_spatialreference (some u) b (some w) d rot
        = .error .valueError) ∧
    (∀ (sr0 : SR) (v w rot : ℝ) (b d : Option ℝ), (b = none ∨ d = none) →
      sr0.set_spatialreference b (some v) d (some w) rot
        = .error .valueError) ∧
    (∀ a : InitArgs, a.delr.sum ≠ 0 → a.delc.sum ≠ 0 →
      ((a.xul.isSome ∧ a.xll.isSome) ∨ (a.yul.isSome ∧ a.yll.isSome)) →
      srInit a = .error .valueError) ∧
    (∀ (a : InitArgs) (m : ℝ), (a.xul = none ∨ a.xll = none) →
      (a.yul = none ∨ a.yll = none) → a.srBase.length_multiplier = .ok m →
      (srInit a).isOk = true) := by
  refine ⟨?_, ?_, ?_, ?_⟩
  · intro sr0 u w rot b d
    simp [SR.set_spatialreference]
  · intro sr0 v w rot b d h
    rcases h with h | h <;> subst h <;> simp [SR.set_spatialreference]
  · intro a h1 h2 h3
    have hfb : ¬ ((a.delr.sum = 0 ∨ a.delc.sum = 0) ∧
        (a.xll = none ∨ a.yll = none)) := by
      rintro ⟨hor, _⟩
      rcases hor with h | h
      · exact h1 h
      · exact h2 h
    simp only [srInit]
    rw [if_neg hfb]
    rcases h3 with ⟨hxu, hxl⟩ | ⟨hyu, hyl⟩
    · obtain ⟨u, hu⟩ := Option.isSome_iff_exists.mp hxu
      obtain ⟨w, hw⟩ := Option.isSome_iff_exists.mp hxl
      rw [hu, hw]
      simp [SR.set_spatialreference, Except.map]
    · obtain ⟨v, hv⟩ := Option.isSome_iff_exists.mp hyu
      obtain ⟨w, hw⟩ := Option.isSome_iff_exists.mp hyl
      by_cases hc : a.xul.isSome ∧ a.xll.isSome
      · obtain ⟨u, hu⟩ := Option.isSome_iff_exists.mp hc.1
        obtain ⟨w', hw'⟩ := Option.isSome_iff_exists.mp hc.2
        rw [hu, hw']
        simp [SR.set_spatialreference, Except.map]
      · rw [hv, hw]
        simp [SR.set_spatialreference, Except.map, hc]
  · intro a m hx hy hm
    simp only [srInit]
    rw [except_isOk_map]
    by_cases hfb : (a.delr.sum = 0 ∨ a.delc.sum = 0) ∧
        (a.xll = none ∨ a.yll = none)
    · rw [if_pos hfb]
      exact set_sr_isOk _ _ _ _ _ _ m hm (Or.inl rfl) (Or.inl rfl)
    · rw [if_neg hfb]
      exact set_sr_isOk _ _ _ _ _ _ m hm hx hy

/-- Counterexample to C8 as stated: `initBothX` supplies both `xul` and
`xll`, yet constructing succeeds (with the degenerate-spacing fallback and a
diagnostic) instead of raising a ValueError, because the fallback discards
the corner inputs before `set_spatialreference` checks them. -/
theorem init_both_corners_no_error :
    srInit initBothX = .ok (srFallback [0] [0], true) ∧
    initBothX.xul = some 1 ∧ initBothX.xll = some 2 := by
  refine ⟨?_, rfl, rfl⟩
  have hc : (initBothX.delr.sum = 0 ∨ initBothX.delc.sum = 0) ∧
      (initBothX.xll = none ∨ initBothX.yll = none) :=
    ⟨Or.inl (by norm_num [initBothX]), Or.inr rfl⟩
  simp only [srInit]
  rw [if_pos hc]
  rw [set_sr_ll_form, length_multiplier_update,
    show initBothX.srBase.length_multiplier = .ok 1 from rfl]
  simp only [Except.map]
  norm_num [SR.set_origin, SR.theta, SR.yedge0, SR.get_yedge_array,
    SR.lmval, SR.length_multiplier, initBothX, InitArgs.srBase, srFallback,
    accumulate, SR.mk.injEq, Real.sin_zero, Real.cos_zero, Except.toOption]

/-- Witness for the amended C8 at concrete inputs: both x-corners supplied
to `set_spatialreference` raises, and a single-corner constructor call
succeeds. -/
theorem ambiguous_anchor_check_witness :
    srSpacing.set_spatialreference (some 1) none (some 2) none 0
      = .error .valueError ∧
    (initHonor.xul = none ∨ initHonor.xll = none) ∧
    (initHonor.yul = none ∨ initHonor.yll = none) ∧
    initHonor.srBase.length_multiplier = .ok 1 ∧
    (srInit initHonor).isOk = true :=
  ⟨ambiguous_anchor_check.1 srSpacing 1 2 0 none none,
   Or.inr rfl, Or.inr rfl, rfl,
   ambiguous_anchor_check.2.2.2 initHonor 1 (Or.inr rfl) (Or.inr rfl) rfl⟩

/-- C4 (amended): mutating `rotation` succeeds, eagerly re-derives the
complementary corner and invalidates all cached grids; mutating an anchor
coordinate or the units succeeds and invalidates all cached grids without
recomputing the complementary corner at mutation time; mutating
`length_multiplier` raises `AttributeError` (getter-only property); every
invalidated cache is rebuilt from the current parameters on the next read. -/
theorem mutation_cache_invalidation (st : SRState) (v m : ℝ) (u : String)
    (hm : st.core.length_multiplier = .ok m) (hu : u = "feet" ∨ u = "meters") :
    mutationSpec st v u := by
  have hm' : ({ st.core with rotation := v } : SR).length_multiplier = .ok m := hm
  refine ⟨?_, rfl, rfl, ?_, rfl, ?_, ?_, ?_⟩
  · simp only [SRState.setRotation]
    rw [hm']
    rfl
  · rcases hu with h | h <;> subst h <;> rfl
  · intro s h
    simp only [SRState.getXcentergrid, h]
  · intro s h
    simp only [SRState.getXgrid, h]
  · intro s h
    simp only [SRState.getVertices, h]

/-- Counterexample to C4 as stated: on a concrete, fully ordinary frame,
assigning to `length_multiplier` does not succeed — it raises
`AttributeError`, because `length_multiplier` is a getter-only property and
the `__setattr__` branch for it delegates the store to `object.__setattr__`
before ever reaching its `set_origin` call. -/
theorem set_length_multiplier_raises :
    stDemo.setLengthMultiplier 2 = .error .attributeError := rfl

/-- Witness for the amended C4 at a concrete state with empty caches. -/
theorem mutation_cache_invalidation_witness :
    stDemo.core.length_multiplier = .ok 1 ∧
    ("feet" = "feet" ∨ "feet" = "meters") ∧
    mutationSpec stDemo 7 "feet" :=
  ⟨rfl, Or.inl rfl,
   mutation_cache_invalidation stDemo 7 1 "feet" rfl (Or.inl rfl)⟩

end Flopy
